import Mathlib

/-!
Verification of the MentOS paging and process core.

Shallow embedding, in Lean 4, of the virtual-memory and process-lifecycle
core of the MentOS kernel: the page-fault handler, the copy-on-write page
cloning (`mem_clone_vm_area`), the page-directory entry allocator
(`__mem_pg_entry_alloc`), `sys_mmap` / `sys_munmap`, `sys_fork`,
`sys_execve` with its `__load_executable` helper, and the argv/envp
marshalling helpers (`__count_args_bytes`, `__push_args_on_stack`).

Pure C functions become Lean functions.  Mutable kernel state (page-table
entries, the task structure, the VMA list) is passed explicitly.  External
collaborators that are not part of these sources (the VFS, the ELF loader,
the frame allocator, the scheduler context-switch helpers, the
`vm_area_*` layer) are modelled as explicit environment parameters, each
documented where it is introduced.
-/

namespace MentOS

/-! Section: Memory-management flag constants

Modelled from the spec: the `MM_*` flag bits (`mem/paging.h` is not among
the sources).  They are kernel-internal request bits; all that matters is
that they are distinct single bits. -/

/-- Request bit `MM_PRESENT`. -/
def MM_PRESENT : Nat := 0x01

/-- Request bit `MM_RW`. -/
def MM_RW : Nat := 0x02

/-- Request bit `MM_USER`. -/
def MM_USER : Nat := 0x04

/-- Request bit `MM_UPDADDR`. -/
def MM_UPDADDR : Nat := 0x08

/-- Request bit `MM_COW`. -/
def MM_COW : Nat := 0x10

/-- Request bit `MM_GLOBAL`. -/
def MM_GLOBAL : Nat := 0x20

/-- Page size (4 KiB). -/
def PAGE_SIZE : Nat := 4096

/-! Section: Page-table entries

The leaf entry of the two-level x86 table.  Modelled from the spec: each
leaf entry carries frame number, present, rw, user, global, accessed,
dirty, and one `kernel_cow` bit stored in the available bits
(`mem/paging.h` with the bit-field layout is not among the sources; the
layout below is the standard x86 PTE layout with `kernel_cow` in the
first CPU-available bit, bit 9, and the 2-bit `available` field at bits
10-11, frame at bits 12-31). -/

structure page_table_entry_t where
  present : Bool
  rw : Bool
  user : Bool
  w_through : Bool
  cache_disabled : Bool
  accessed : Bool
  dirty : Bool
  zero : Bool
  global : Bool
  kernel_cow : Bool
  /-- 2-bit field (bits 10-11). -/
  available : Nat
  /-- 20-bit frame number (bits 12-31). -/
  frame : Nat
  deriving Repr, DecidableEq

/-- Decode a raw 32-bit word into a `page_table_entry_t` (the C code reads
and writes entries through `uint32_t` casts). -/
def pteDecode (w : Nat) : page_table_entry_t where
  present := w % 2 = 1
  rw := w / 2 % 2 = 1
  user := w / 4 % 2 = 1
  w_through := w / 8 % 2 = 1
  cache_disabled := w / 16 % 2 = 1
  accessed := w / 32 % 2 = 1
  dirty := w / 64 % 2 = 1
  zero := w / 128 % 2 = 1
  global := w / 256 % 2 = 1
  kernel_cow := w / 512 % 2 = 1
  available := w / 1024 % 4
  frame := w / 4096 % 1048576

/-- Encode a `page_table_entry_t` back into its raw 32-bit word. -/
def pteEncode (e : page_table_entry_t) : Nat :=
  (if e.present then 1 else 0) +
  (if e.rw then 2 else 0) +
  (if e.user then 4 else 0) +
  (if e.w_through then 8 else 0) +
  (if e.cache_disabled then 16 else 0) +
  (if e.accessed then 32 else 0) +
  (if e.dirty then 64 else 0) +
  (if e.zero then 128 else 0) +
  (if e.global then 256 else 0) +
  (if e.kernel_cow then 512 else 0) +
  1024 * (e.available % 4) +
  4096 * (e.frame % 1048576)

/-- Function `__set_pg_table_flags` from `paging.c`: rewrites the rw, present,
kernel_cow, available (forced to 1), global and user bits of a leaf entry
according to the `MM_*` request `flags`; other fields are untouched. -/
def __set_pg_table_flags (t : page_table_entry_t) (flags : Nat) : page_table_entry_t :=
  { t with
    rw := flags &&& MM_RW ≠ 0
    present := flags &&& MM_PRESENT ≠ 0
    kernel_cow := flags &&& MM_COW ≠ 0
    available := 1
    global := flags &&& MM_GLOBAL ≠ 0
    user := flags &&& MM_USER ≠ 0 }

/-! Section: `__page_handle_cow` -/

/-- Collaborator environment for `__page_handle_cow`: the physical frame
allocator (`alloc_pages`) and the transient kernel mapping
(`vmem_map_physical_pages`), neither of which is among the sources.
`allocOk`/`vmemMapOk` say whether those calls succeed and `newFrame` is
the frame number of the freshly allocated page. -/
structure CowEnv where
  allocOk : Bool
  vmemMapOk : Bool
  newFrame : Nat
  deriving Repr, DecidableEq

/-- Result of `__page_handle_cow`: the C function returns 0 on success or
1 on error, mutating the entry in place; we return the (possibly mutated)
entry together with the success flag. -/
inductive CowRes where
  /-- Return value 0, with the final state of the entry. -/
  | ok (entry : page_table_entry_t) : CowRes
  /-- Return value 1, with the final state of the entry. -/
  | err (entry : page_table_entry_t) : CowRes
  deriving Repr, DecidableEq

/-- Function `__page_handle_cow` from `paging.c`.  If the entry is marked
`kernel_cow` the bit is cleared; if additionally the entry is not present
a fresh zeroed frame is allocated and installed and the function returns
0.  In every other case the function falls through to the `return 1`
error path (note that for a CoW entry that is already present the CoW
bit has been cleared by then, but the function still returns 1). -/
def __page_handle_cow (env : CowEnv) (e : page_table_entry_t) : CowRes :=
  if e.kernel_cow then
    -- entry->kernel_cow = 0;
    let e1 := { e with kernel_cow := false }
    if !e1.present then
      if env.allocOk then
        if env.vmemMapOk then
          -- The fresh page is zeroed, its frame installed, present set.
          CowRes.ok { e1 with frame := env.newFrame, present := true }
        else CowRes.err e1
      else CowRes.err e1
    else
      -- Falls through to the common `return 1` error path.
      CowRes.err e1
  else
    CowRes.err e

/-! Section: `__mem_pg_entry_alloc` -/

/-- A page-directory (first-level) entry.  Field set taken from the uses
in `paging.c` (`present`, `rw`, `global`, `user`, `accessed`,
`available`, `frame`). -/
structure page_dir_entry_t where
  present : Bool
  rw : Bool
  user : Bool
  accessed : Bool
  global : Bool
  available : Nat
  frame : Nat
  deriving Repr, DecidableEq

/-- Result of `__mem_pg_entry_alloc`: either a kernel panic, a failure
(NULL return), or the updated directory entry.  `fresh` is the branch
that allocated a new page table, `existing` the branch that reused the
present one. -/
inductive PgEntryAllocRes where
  /-- A `kernel_panic` was invoked. -/
  | panic : PgEntryAllocRes
  /-- NULL return (allocation or lookup failure), with the entry state at
  that point. -/
  | fail (entry : page_dir_entry_t) : PgEntryAllocRes
  /-- A fresh page table was allocated; the updated entry. -/
  | fresh (entry : page_dir_entry_t) : PgEntryAllocRes
  /-- The already-present page table was reused; the updated entry. -/
  | existing (entry : page_dir_entry_t) : PgEntryAllocRes
  deriving Repr, DecidableEq

/-- Collaborator environment for `__mem_pg_entry_alloc`: whether the
`kmem_cache_alloc` of a fresh page table succeeds, and whether the
physical-to-virtual lookup of the existing table succeeds. -/
structure PgAllocEnv where
  tableAllocOk : Bool
  lookupOk : Bool
  deriving Repr, DecidableEq

/-- Function `__mem_pg_entry_alloc` from `paging.c`.  If the directory entry is not
present, a new page table is allocated and the entry initialised from
`flags`.  If it is present, the present/rw bits are or-ed in, then —
before anything else — an attempt to drop the global bit from an
already-global entry triggers `kernel_panic`; otherwise the global and
user bits are updated and the existing table is looked up. -/
def __mem_pg_entry_alloc (env : PgAllocEnv) (entry : page_dir_entry_t) (flags : Nat) :
    PgEntryAllocRes :=
  if !entry.present then
    let e1 : page_dir_entry_t :=
      { entry with
        present := true
        rw := true
        global := flags &&& MM_GLOBAL ≠ 0
        user := flags &&& MM_USER ≠ 0
        accessed := false
        available := 1 }
    if env.tableAllocOk then PgEntryAllocRes.fresh e1 else PgEntryAllocRes.fail e1
  else
    -- entry->present |= ...; entry->rw |= ...;
    let e1 : page_dir_entry_t :=
      { entry with
        present := entry.present || (flags &&& MM_PRESENT ≠ 0)
        rw := entry.rw || (flags &&& MM_RW ≠ 0) }
    -- if (entry->global && !(flags & MM_GLOBAL)) kernel_panic(...);
    if e1.global && !(flags &&& MM_GLOBAL ≠ 0) then
      PgEntryAllocRes.panic
    else
      let e2 : page_dir_entry_t :=
        { e1 with
          global := e1.global && (flags &&& MM_GLOBAL ≠ 0)
          user := e1.user || (flags &&& MM_USER ≠ 0) }
      if env.lookupOk then PgEntryAllocRes.existing e2 else PgEntryAllocRes.fail e2

/-! Section: The page-fault handler -/

/-- The state the page-fault handler finds for a faulting address: the
error-code bits pushed by the CPU, the faulting address from CR2, the
page-directory entry covering it, the leaf page-table entry, whether the
address lies in the kernel virtual-alias range
(`is_valid_virtual_address`), a reader for the kernel view of memory used
by the alias pointer-chase (`entryAt`, mapping the address stored in the
aliased word to the original leaf entry), the current task (if any), and
the CoW collaborator environment. -/
structure PFEnv where
  err_user : Bool
  err_rw : Bool
  err_present : Bool
  faulting_addr : Nat
  dir_present : Bool
  entry : page_table_entry_t
  is_valid_virtual : Bool
  entryAt : Nat → page_table_entry_t
  current_task : Option Nat
  cow : CowEnv

/-- Outcome of `page_fault_handler`. -/
inductive PFOutcome where
  /-- The handler returned normally: the final leaf entry, and the address
  whose TLB entry was invalidated (`paging_flush_tlb_single`). -/
  | resolved (entry : page_table_entry_t) (flushed_addr : Nat) : PFOutcome
  /-- A `sys_kill(pid, SIGSEGV)` was issued and `scheduler_run` re-entered;
  the handler returns without retrying the faulting instruction. -/
  | segv (pid : Nat) : PFOutcome
  /-- A `__page_fault_panic` was invoked. -/
  | panic : PFOutcome
  deriving Repr, DecidableEq

/-- Function `page_fault_handler` from `paging.c`.  The preliminary lookups of the
current directory through the identity map are assumed to succeed (they
only fail on corrupted global state).  The decision structure follows the
source: a not-present directory entry gives SIGSEGV for user faults (when
a current task exists) and panic otherwise; an address in the
virtual-alias range chases the stored entry pointer, resolves its CoW
state and copies the frame back; otherwise the leaf entry itself is
handed to `__page_handle_cow`, whose failure gives SIGSEGV exactly for
`user ∧ rw ∧ present` error bits (when a current task exists) and panic
otherwise.  Successful resolutions end with a TLB flush of the faulting
address. -/
def page_fault_handler (env : PFEnv) : PFOutcome :=
  if !env.dir_present then
    if env.err_user then
      match env.current_task with
      | some pid => PFOutcome.segv pid
      | none => PFOutcome.panic
    else PFOutcome.panic
  else
    if env.is_valid_virtual then
      -- page_table_entry_t *orig_entry = (page_table_entry_t *)(*(uint32_t *)entry);
      let p := pteEncode env.entry
      if p = 0 then PFOutcome.panic
      else
        match __page_handle_cow env.cow (env.entryAt p) with
        | CowRes.err _ => PFOutcome.panic
        | CowRes.ok orig =>
          let e2 := __set_pg_table_flags { env.entry with frame := orig.frame }
            (MM_PRESENT ||| MM_RW ||| MM_GLOBAL ||| MM_COW ||| MM_UPDADDR)
          PFOutcome.resolved e2 env.faulting_addr
    else
      match __page_handle_cow env.cow env.entry with
      | CowRes.err _ =>
        if env.err_user && env.err_rw && env.err_present then
          match env.current_task with
          | some pid => PFOutcome.segv pid
          | none => PFOutcome.panic
        else PFOutcome.panic
      | CowRes.ok e1 => PFOutcome.resolved e1 env.faulting_addr

/-! Section: `mem_clone_vm_area`

The page iterator (`__pg_iter_init` / `__pg_iter_next`) walks one leaf
entry per page of a contiguous virtual range, lazily allocating
intermediate page tables; the values it yields are the leaf entries for
consecutive page-frame numbers.  We model a page directory's leaf level
as a flat map from pfn to leaf entry, together with the kernel address of
each entry (needed because the CoW clone stores the *address* of the
source entry in the destination word). -/

/-- Flat view of the leaf level of a page directory: the entry for each
page-frame number, and the kernel virtual address at which that entry
lives. -/
structure PageView where
  entries : Nat → page_table_entry_t
  entryAddr : Nat → Nat

/-- The per-entry body of the `mem_clone_vm_area` loop.  If the source
entry is CoW, the whole 32-bit destination word is overwritten with the
address of the source entry and then the present bit is cleared;
otherwise the destination receives the source frame number and the flag
bits derived from `flags`. -/
def cloneEntry (src : PageView) (flags : Nat) (dst : page_table_entry_t) (spfn : Nat) :
    page_table_entry_t :=
  let s := src.entries spfn
  if s.kernel_cow then
    -- *(uint32_t *)dst_it.entry = (uint32_t)src_it.entry;
    -- dst_it.entry->present = 0;
    { pteDecode (src.entryAddr spfn) with present := false }
  else
    -- dst_it.entry->frame = src_it.entry->frame;
    -- __set_pg_table_flags(dst_it.entry, flags);
    __set_pg_table_flags { dst with frame := s.frame } flags

/-- The iteration of `mem_clone_vm_area`: starting at source pfn `spfn`
and destination pfn `dpfn`, clone `count` consecutive leaf entries,
flushing the TLB entry of each destination page.  Returns the updated
destination leaf map and the list of flushed (virtual) addresses. -/
def cloneLoop (src : PageView) (flags : Nat) (dst : Nat → page_table_entry_t)
    (spfn dpfn : Nat) : Nat → (Nat → page_table_entry_t) × List Nat
  | 0 => (dst, [])
  | count + 1 =>
    let dst1 := fun p => if p = dpfn then cloneEntry src flags (dst dpfn) spfn else dst p
    let rest := cloneLoop src flags dst1 (spfn + 1) (dpfn + 1) count
    (rest.1, dpfn * PAGE_SIZE :: rest.2)

/-- Number of leaf entries the page iterator yields for a range:
`end_pfn - start_pfn` with `end_pfn = ⌈(start + size) / PAGE_SIZE⌉`. -/
def pgIterCount (addr_start size : Nat) : Nat :=
  (addr_start + size + PAGE_SIZE - 1) / PAGE_SIZE - addr_start / PAGE_SIZE

/-- Function `mem_clone_vm_area` from `paging.c` (the leaf-level data flow; the
lazy allocation of intermediate tables by the two iterators only
materialises storage and cannot fail into this data path).  The loop body
runs once per page while *both* iterators have a next entry. -/
def mem_clone_vm_area (src : PageView) (dst : Nat → page_table_entry_t)
    (src_start dst_start size flags : Nat) : (Nat → page_table_entry_t) × List Nat :=
  cloneLoop src flags dst (src_start / PAGE_SIZE) (dst_start / PAGE_SIZE)
    (min (pgIterCount src_start size) (pgIterCount dst_start size))

/-! Section: `sys_mmap` and `sys_munmap` -/

/-- A virtual-memory area as stored in the task's `mmap_list`. -/
structure vm_area_struct_t where
  vm_start : Nat
  vm_end : Nat
  vm_flags : Nat
  deriving Repr, DecidableEq

/-- Modelled from the spec: `vm_area_is_valid` (the `vm_area` layer is
not among the sources) — a requested range is usable when it is
non-empty and does not overlap any existing VMA. -/
def vm_area_is_valid (l : List vm_area_struct_t) (s e : Nat) : Bool :=
  decide (s < e) && l.all fun v => decide (e ≤ v.vm_start) || decide (v.vm_end ≤ s)

/-- Modelled from the spec: `vm_area_create` (not among the sources) —
allocates a VMA of `length` bytes at `start` and links it into the
task's `mmap_list`; the new area becomes the `mmap_cache`. -/
def vm_area_create (l : List vm_area_struct_t) (start length flags : Nat) :
    List vm_area_struct_t :=
  { vm_start := start, vm_end := start + length, vm_flags := flags } :: l

/-- Collaborator environment for `sys_mmap`: validity of the file
descriptor and file, success of `vfs_fstat`, the file size, success of
`vm_area_create`'s internal allocations, and the candidate produced by
`vm_area_search_free_area` (modelled from the spec: the search yields a
start address whose range is free; the candidate is only accepted here
if it indeed maps a free range). -/
structure MmapEnv where
  fdValid : Bool
  fileValid : Bool
  fstatOk : Bool
  fileSize : Nat
  createOk : Bool
  searchResult : Option Nat
  deriving Repr, DecidableEq

/-- Modelled from the spec: `vm_area_search_free_area` returns a start
address for a free area of the requested length, or failure. -/
def vm_area_search_free_area (env : MmapEnv) (l : List vm_area_struct_t) (length : Nat) :
    Option Nat :=
  match env.searchResult with
  | none => none
  | some s => if vm_area_is_valid l s (s + length) then some s else none

/-- Start-address selection of `sys_mmap` from `paging.c`: the requested
address is used if non-NULL and valid, otherwise a free area is
searched. -/
def mmapChooseStart (env : MmapEnv) (l : List vm_area_struct_t) (addr : Option Nat)
    (length : Nat) : Option Nat :=
  match addr with
  | some a =>
    if vm_area_is_valid l a (a + length) then some a
    else vm_area_search_free_area env l length
  | none => vm_area_search_free_area env l length

/-- Function `sys_mmap` from `paging.c`: after the fd/file/fstat/size
checks, the start address is chosen by `mmapChooseStart`; a VMA of
`length` bytes is created there (with `MM_PRESENT | MM_RW | MM_COW |
MM_USER` page flags) and its `vm_flags` set to the mmap `flags`; the
start address is returned together with the updated `mmap_list`.
Here `none` models the NULL return. -/
def sys_mmap (env : MmapEnv) (l : List vm_area_struct_t) (addr : Option Nat)
    (length : Nat) (flags : Nat) (offset : Nat) : Option (Nat × List vm_area_struct_t) :=
  if !env.fdValid then none
  else if !env.fileValid then none
  else if !env.fstatOk then none
  else if offset + length > env.fileSize then none
  else
    match mmapChooseStart env l addr length with
    | none => none
    | some vm_start =>
      if env.createOk then
        some (vm_start, vm_area_create l vm_start length flags)
      else none

/-- The reverse-order scan of `sys_munmap`: the `mmap_list` is traversed
with `list_for_each_prev` (i.e. from the tail), and the first VMA whose
start address and size match exactly is destroyed.  Returns the list
without that VMA, or `none` when no VMA matches. -/
def munmapScan (addr length : Nat) : List vm_area_struct_t → Option (List vm_area_struct_t)
  | [] => none
  | v :: t =>
    match munmapScan addr length t with
    | some t1 => some (v :: t1)
    | none =>
      if v.vm_start = addr ∧ v.vm_end - v.vm_start = length then some t else none

/-- Function `sys_munmap` from `paging.c`: destroy the VMA matching `(addr,
length)` exactly (via `vm_area_destroy`, modelled from the spec as
unlinking the area) and return 0, or return the positive indicator 1
leaving the list unchanged when no VMA matches. -/
def sys_munmap (l : List vm_area_struct_t) (addr length : Nat) :
    Int × List vm_area_struct_t :=
  match munmapScan addr length l with
  | some l1 => (0, l1)
  | none => (1, l)

/-! Section: Tasks and `sys_fork` -/

/-- The interrupt-frame register snapshot (`pt_regs`), restricted to the
fields that `process.c` reads or writes: the user-visible general
registers, segment selectors, instruction pointer, flags, and user stack
pointer (`int_no` and `err_code` are interrupt bookkeeping, not
user-visible registers). -/
structure pt_regs_t where
  gs : Nat
  fs : Nat
  es : Nat
  ds : Nat
  edi : Nat
  esi : Nat
  ebp : Nat
  ebx : Nat
  edx : Nat
  ecx : Nat
  eax : Nat
  eip : Nat
  cs : Nat
  eflags : Nat
  useresp : Nat
  ss : Nat
  deriving Repr, DecidableEq

/-- The interrupt-enable bit of `eflags` (`EFLAG_IF = 1 << 9`). -/
def EFLAG_IF : Nat := 512

/-- The per-process address space.  Modelled from the spec: for the fork
claims only the user-visible byte contents of the address space matter;
`contents` maps a virtual address to the byte stored there. -/
structure mm_struct_t where
  contents : Nat → Nat

/-- The fields of `task_struct` that `sys_fork` touches. -/
structure task_struct where
  pid : Nat
  thread_regs : pt_regs_t
  mm : mm_struct_t
  uid : Nat
  ruid : Nat
  gid : Nat
  rgid : Nat
  sid : Nat
  pgid : Nat
  name : String

/-- Modelled from the spec: `scheduler_store_context(f, task)` (the
scheduler sources are not in the tree) saves the trap-frame register
snapshot into the task. -/
def scheduler_store_context (f : pt_regs_t) (t : task_struct) : task_struct :=
  { t with thread_regs := f }

/-- Modelled from the spec: `mm_clone` (the `mm` sources are not in the
tree) CoW-clones the parent's address space; all pages are shared until
first write, so the logical byte contents of the clone equal the
parent's. -/
def mm_clone (m : mm_struct_t) : mm_struct_t :=
  { contents := m.contents }

/-- Function `__alloc_task` from `process.c`, in the configuration `sys_fork` uses
(a `source` task which is also the parent): the new task gets a fresh
pid from the pid manager (passed in as `newPid`), the source's thread
state (`memcpy(&proc->thread, &source->thread, ...)`), zeroed
credentials, and `proc->mm = NULL` — here represented by an empty
address space, as every caller overwrites `mm` before use. -/
def __alloc_task (source : task_struct) (newPid : Nat) (name : String) : task_struct :=
  { pid := newPid
    thread_regs := source.thread_regs
    mm := { contents := fun _ => 0 }
    uid := 0, ruid := 0, gid := 0, rgid := 0, sid := 0, pgid := 0
    name := name }

/-- Function `sys_fork` from `process.c`: store the parent's trap frame into its
PCB, allocate the child from the parent, CoW-clone the parent's `mm`,
force the child's `eax` to 0, or `EFLAG_IF` into the child's `eflags`,
copy the credentials, and return the child's pid (to the parent) with
the updated parent and the child. -/
def sys_fork (current : task_struct) (f : pt_regs_t) (newPid : Nat) :
    Nat × task_struct × task_struct :=
  let current1 := scheduler_store_context f current
  let proc0 := __alloc_task current1 newPid current1.name
  let proc :=
    { proc0 with
      mm := mm_clone current1.mm
      thread_regs :=
        { proc0.thread_regs with
          eax := 0
          eflags := proc0.thread_regs.eflags ||| EFLAG_IF }
      sid := current1.sid
      pgid := current1.pgid
      uid := current1.uid
      ruid := current1.ruid
      gid := current1.gid
      rgid := current1.rgid }
  (proc.pid, current1, proc)

/-! Section: Argument marshalling: `__count_args`, `__count_args_bytes`,
`__push_args_on_stack`

A NULL-terminated `char **` array is represented as a `List String`
(ASCII contents, so `String.length` coincides with `strlen`).  The
stack is a byte-addressed memory with a stack pointer;
`PUSH_VALUE_ON_STACK` decrements the pointer by the size of the value
and stores the value there. -/

/-- Function `__count_args`: the number of arguments. -/
def __count_args (args : List String) : Nat := args.length

/-- Function `__count_args_bytes`: the characters of every argument including the
NUL terminators, plus `(argc + 1)` pointer-sized (4-byte) words for the
argument-pointer array and its NULL terminator. -/
def __count_args_bytes (args : List String) : Nat :=
  (args.map fun a => a.length + 1).sum + (args.length + 1) * 4

/-- A stack pointer with the memory behind it. -/
structure PushState where
  sp : Nat
  mem : Nat → Nat

/-- Macro `PUSH_VALUE_ON_STACK` applied to a one-byte value. -/
def pushByte (st : PushState) (b : Nat) : PushState :=
  { sp := st.sp - 1
    mem := fun p => if p = st.sp - 1 then b % 256 else st.mem p }

/-- Macro `PUSH_VALUE_ON_STACK` applied to a four-byte value (little endian). -/
def pushWord (st : PushState) (v : Nat) : PushState :=
  { sp := st.sp - 4
    mem := fun p =>
      if st.sp - 4 ≤ p ∧ p < st.sp then v / 256 ^ (p - (st.sp - 4)) % 256 else st.mem p }

/-- Push the characters of one argument: the inner loop runs `j` from
`strlen(args[i])` down to 0, pushing one byte per character including
the NUL terminator. -/
def pushString (st : PushState) (s : String) : PushState :=
  ((s.data.map Char.toNat) ++ [0]).reverse.foldl pushByte st

/-- The first loop of `__push_args_on_stack`: arguments are processed
from the last to the first, recording in `args_location` the stack
position of each argument's first character. -/
def pushArgsPhase1 : PushState → List String → PushState × List Nat
  | st, [] => (st, [])
  | st, a :: rest =>
    let r := pushArgsPhase1 st rest
    let st2 := pushString r.1 a
    (st2, st2.sp :: r.2)

/-- Function `__push_args_on_stack` from `process.c`: push every argument's
characters, a terminating 4-byte NULL, then the argument pointers from
the last to the first.  Returns the final stack pointer (the address of
the pushed pointer array) together with the final state. -/
def __push_args_on_stack (st : PushState) (args : List String) : Nat × PushState :=
  let r := pushArgsPhase1 st args
  let st2 := pushWord r.1 0
  let st3 := r.2.reverse.foldl pushWord st2
  (st3.sp, st3)

/-! Section: `__load_executable` and `sys_execve` -/

/-- Errno values used by the exec path (from `errno.h`, not among the
sources; standard values). -/
def ENOENT : Int := 2
/-- Value of `ENOEXEC`. -/
def ENOEXEC : Int := 8
/-- Value of `ENOMEM`. -/
def ENOMEM : Int := 12
/-- Value of `EACCES`. -/
def EACCES : Int := 13
/-- Value of `ENAMETOOLONG`. -/
def ENAMETOOLONG : Int := 36
/-- Value of `ELOOP`. -/
def ELOOP : Int := 40

/-- What the VFS and ELF loader report about one file, as consumed by
`__load_executable`: execute permission, whether it is an `ET_EXEC` ELF,
its shebang state (`none` = no `#!`; `some none` = `#!` but no newline
within the `PATH_MAX` buffer, the `ENAMETOOLONG` case; `some (some i)` =
first line names interpreter `i`), the setuid/setgid owner overrides,
whether `elf_load_file` succeeds on it, and the ELF entry point. -/
structure FileInfo where
  execPerm : Bool
  isElfExec : Bool
  shebang : Option (Option String)
  suid : Option Nat
  sgid : Option Nat
  elfLoadOk : Bool
  entry : Nat
  deriving Repr, DecidableEq

/-- Collaborator environment for `__load_executable`: the file system
(mapping a path to its `FileInfo`, `none` when `vfs_open` fails) and
whether `__reset_process` (i.e. `mm_create_blank`) succeeds. -/
structure ExecEnv where
  fs : String → Option FileInfo
  resetOk : Bool

/-- State of the task's process image across exec. -/
inductive MMState where
  /-- The pre-exec image is intact. -/
  | original : MMState
  /-- State where `mm_destroy` ran and `mm_create_blank` failed: `task->mm` is NULL. -/
  | nullmm : MMState
  /-- The old image was torn down and replaced by a blank stack-only mm. -/
  | blank : MMState
  /-- The blank mm was populated with the ELF segments of `path`. -/
  | image (path : String) : MMState
  deriving Repr, DecidableEq

/-- Result of `__load_executable`: the return code (negative errno, 0 for
a failed ELF load, 1 for success, 2 when an interpreter was loaded), the
resulting image state, the effective uid/gid overrides applied by
setuid/setgid bits, and the entry point when one was loaded. -/
structure LoadRes where
  ret : Int
  mm : MMState
  uid : Option Nat
  gid : Option Nat
  entry : Option Nat
  deriving Repr, DecidableEq

/-- The body of `__load_executable` with the `goto start` loop unrolled
by fuel.  `loop` is the `interpreter_loop` flag; recursion only happens
with `loop = false`, so with fuel 2 the fuel can never run out (the
fuel-0 branch is unreachable). -/
def loadExecAux (env : ExecEnv) :
    Nat → String → MMState → Bool → Option Nat → Option Nat → LoadRes
  | 0, _, mm, _, u, g =>
    -- Unreachable: the second iteration returns ELOOP before recursing.
    { ret := -ELOOP, mm := mm, uid := u, gid := g, entry := none }
  | fuel + 1, path, mm, loop, u, g =>
    match env.fs path with
    | none =>
      -- vfs_open failed: return -errno.
      { ret := -ENOENT, mm := mm, uid := u, gid := g, entry := none }
    | some fi =>
      if !fi.execPerm then
        { ret := -EACCES, mm := mm, uid := u, gid := g, entry := none }
      else if !(fi.isElfExec || fi.shebang.isSome) then
        { ret := -ENOEXEC, mm := mm, uid := u, gid := g, entry := none }
      else
        -- Setuid/setgid overrides, then mm_destroy + __reset_process.
        let u1 := fi.suid.orElse fun _ => u
        let g1 := fi.sgid.orElse fun _ => g
        if !env.resetOk then
          { ret := -ENOMEM, mm := MMState.nullmm, uid := u1, gid := g1, entry := none }
        else
          match fi.shebang with
          | some lineOpt =>
            if loop then
              { ret := -ELOOP, mm := MMState.blank, uid := u1, gid := g1, entry := none }
            else
              match lineOpt with
              | none =>
                { ret := -ENAMETOOLONG, mm := MMState.blank, uid := u1, gid := g1,
                  entry := none }
              | some interp => loadExecAux env fuel interp MMState.blank true u1 g1
          | none =>
            -- elf_load_file; on the interpreter iteration the return code
            -- is overwritten with 2 afterwards.
            let loaded := fi.elfLoadOk
            { ret := if loop then 2 else if loaded then 1 else 0
              mm := if loaded then MMState.image path else MMState.blank
              uid := u1, gid := g1
              entry := if loaded then some fi.entry else none }

/-- Function `__load_executable` from `process.c`. -/
def __load_executable (env : ExecEnv) (path : String) (mm : MMState) : LoadRes :=
  loadExecAux env 2 path mm false none none

/-- Collaborator environment for `sys_execve`: the loader environment and
the outcomes of the three `kmalloc` calls (the argv/envp scratch block,
the interpreter argv array, and the rebuilt interpreter scratch
block). -/
structure ExecveEnv where
  load : ExecEnv
  argsAllocOk : Bool
  intArgvAllocOk : Bool
  intArgsAllocOk : Bool

/-- Result of `sys_execve`: the syscall return value, the state of the
process image, whether the syscall terminated the task, and — on
success — the argc/argv/envp laid out for `main`, the new process name,
and the loaded image. -/
structure ExecveRes where
  ret : Int
  mm : MMState
  terminated : Bool
  argc : Option Nat
  argv : Option (List String)
  envp : Option (List String)
  name : Option String
  loaded : Option String
  deriving Repr, DecidableEq

/-- Function `sys_execve` from `process.c`.  The argv/envp arrays are marshalled
through the kernel scratch block by `__push_args_on_stack` and read back
pointer-by-pointer, which preserves the string lists; the lists are
carried directly here.  Note that no path of the C function terminates
the task — every failure, including failures after the old `mm` has been
torn down, is a plain `return`; hence `terminated := false` throughout.
On a shebang load (`ret == 2`) the interpreter argv is rebuilt as
`int_argv[0] = saved_argv[0]` (the C source carries a
`TODO: pass the path to the interpreter` comment here), `int_argv[1] =
saved_filename`, and the remaining arguments shifted right; `argc` is
incremented. -/
def sys_execve (env : ExecveEnv) (filename : String)
    (origin_argv origin_envp : List String) : ExecveRes :=
  match origin_argv with
  | [] =>
    -- `origin_argv[0] == NULL`: must provide the name.
    { ret := -1, mm := MMState.original, terminated := false, argc := none,
      argv := none, envp := none, name := none, loaded := none }
  | argv0 :: argvRest =>
    let name_buffer := argv0
    let saved_filename := filename
    let argc := (argv0 :: argvRest).length
    if !env.argsAllocOk then
      -- kmalloc(argv_bytes + envp_bytes) failed: return -1, image intact.
      { ret := -1, mm := MMState.original, terminated := false, argc := none,
        argv := none, envp := none, name := none, loaded := none }
    else
      let saved_argv := argv0 :: argvRest
      let saved_envp := origin_envp
      let lr := __load_executable env.load filename MMState.original
      if lr.ret ≤ 0 then
        -- Failed to load; free the scratch block and return the code.
        { ret := lr.ret, mm := lr.mm, terminated := false, argc := none,
          argv := none, envp := none, name := none, loaded := none }
      else
        let withInterp := lr.ret = 2
        if withInterp ∧ !env.intArgvAllocOk then
          { ret := -1, mm := lr.mm, terminated := false, argc := none,
            argv := none, envp := none, name := none, loaded := none }
        else if withInterp ∧ !env.intArgsAllocOk then
          { ret := -1, mm := lr.mm, terminated := false, argc := none,
            argv := none, envp := none, name := none, loaded := none }
        else
          let final_argc := if withInterp then argc + 1 else argc
          let final_argv :=
            if withInterp then argv0 :: saved_filename :: argvRest else saved_argv
          { ret := 0
            mm := lr.mm
            terminated := false
            argc := some final_argc
            argv := some final_argv
            envp := some saved_envp
            name := some name_buffer
            loaded := match lr.mm with | MMState.image p => some p | _ => none }

/-! Section: Concrete instances used by the theorems below -/

/-! Section: Concrete instances used by closed theorems -/

/-- A present, CoW-marked leaf entry (the state reached for every page
that `mem_clone_vm_area` copied with `MM_COW | MM_PRESENT` flags). -/
def pteCowPresent : page_table_entry_t :=
  { present := true, rw := false, user := true, w_through := false,
    cache_disabled := false, accessed := false, dirty := false, zero := false,
    global := false, kernel_cow := true, available := 1, frame := 5 }

/-- A user write fault (error code 111) at address `0x4000` on the
present CoW entry `pteCowPresent`, with current task pid 7 and a healthy
frame allocator. -/
def pfEnvCowPresent : PFEnv :=
  { err_user := true, err_rw := true, err_present := true
    faulting_addr := 16384
    dir_present := true
    entry := pteCowPresent
    is_valid_virtual := false
    entryAt := fun _ => pteCowPresent
    current_task := some 7
    cow := { allocOk := true, vmemMapOk := true, newFrame := 99 } }

/-- A user read fault on an address whose page-directory entry is not
present, with current task pid 3. -/
def pfEnvDirAbsent : PFEnv :=
  { err_user := true, err_rw := false, err_present := false
    faulting_addr := 4096
    dir_present := false
    entry := pteCowPresent
    is_valid_virtual := false
    entryAt := fun _ => pteCowPresent
    current_task := some 3
    cow := { allocOk := true, vmemMapOk := true, newFrame := 99 } }

/-- A concrete trap frame with the interrupt-enable flag set, as every
trap frame taken from user mode has. -/
def regsSample : pt_regs_t :=
  { gs := 16, fs := 16, es := 35, ds := 35, edi := 1, esi := 2, ebp := 3,
    ebx := 4, edx := 5, ecx := 6, eax := 7, eip := 4096, cs := 27,
    eflags := 512, useresp := 8192, ss := 35 }

/-- A concrete parent task for the fork witness. -/
def taskSample : task_struct :=
  { pid := 1
    thread_regs := regsSample
    mm := { contents := fun _ => 0 }
    uid := 0, ruid := 0, gid := 0, rgid := 0, sid := 4, pgid := 4
    name := "sh" }

/-- A concrete mmap environment for the round-trip witness. -/
def mmapEnvSample : MmapEnv :=
  { fdValid := true, fileValid := true, fstatOk := true, fileSize := 8192,
    createOk := true, searchResult := some 4096 }

/-- A concrete one-page source view for the C3 witness: the single source
entry is CoW-marked and lives at address `0x1008`. -/
def pageViewSample : PageView :=
  { entries := fun _ =>
      { present := true, rw := false, user := true, w_through := false,
        cache_disabled := false, accessed := false, dirty := false, zero := false,
        global := false, kernel_cow := true, available := 1, frame := 77 }
    entryAddr := fun _ => 4104 }

/-- A shebang script file pointing at `/bin/sh`. -/
def fiShebangScript : FileInfo :=
  { execPerm := true, isElfExec := false, shebang := some (some "/bin/sh"),
    suid := none, sgid := none, elfLoadOk := false, entry := 0 }

/-- A loadable `ET_EXEC` ELF interpreter. -/
def fiBinSh : FileInfo :=
  { execPerm := true, isElfExec := true, shebang := none,
    suid := none, sgid := none, elfLoadOk := true, entry := 134512640 }

/-- An interpreter that is itself a shebang script (the nested-shebang
case). -/
def fiNested : FileInfo :=
  { execPerm := true, isElfExec := false, shebang := some (some "inner"),
    suid := none, sgid := none, elfLoadOk := false, entry := 0 }

/-- Environment in which `script` is a `#!/bin/sh` script and `/bin/sh`
is a loadable ELF. -/
def envShebang : ExecveEnv :=
  { load :=
      { fs := fun p =>
          if p = "script" then some fiShebangScript
          else if p = "/bin/sh" then some fiBinSh
          else none
        resetOk := true }
    argsAllocOk := true, intArgvAllocOk := true, intArgsAllocOk := true }

/-- Environment in which `script` is a shebang script whose interpreter
`/bin/sh` is itself a shebang script: the nested-shebang `ELOOP` case. -/
def envNestedShebang : ExecveEnv :=
  { load :=
      { fs := fun p =>
          if p = "script" then some fiShebangScript
          else if p = "/bin/sh" then some fiNested
          else none
        resetOk := true }
    argsAllocOk := true, intArgvAllocOk := true, intArgsAllocOk := true }

/-- Environment in which the kernel scratch-buffer allocation for
argv/envp fails (the pre-teardown failure). -/
def envAllocFail : ExecveEnv :=
  { load := { fs := fun _ => none, resetOk := true }
    argsAllocOk := false, intArgvAllocOk := true, intArgsAllocOk := true }

/-! Section: Theorems -/

/-! Section: Helper lemmas -/

/-- Or-ing a single bit that is already set leaves the word unchanged. -/
theorem or_512_of_testBit (x : Nat) (h : x.testBit 9 = true) : x ||| 512 = x := by
  apply Nat.eq_of_testBit_eq
  intro i
  rw [Nat.testBit_or]
  by_cases hi : i = 9
  · subst hi
    rw [h]
    simp
  · have h512 : (512 : Nat).testBit i = false := by
      have h2 : ((2 : Nat) ^ 9).testBit i = false :=
        Nat.testBit_two_pow_of_ne (Ne.symm hi)
      simpa using h2
    rw [h512]
    simp

/-! Section: Claim C8 -/

/-- C8.  For every update of a page-directory entry that is already
present and has its global bit set, requesting flags that do not include
`MM_GLOBAL` causes a kernel panic rather than continuing. -/
theorem mem_pg_entry_alloc_global_drop_panics
    (env : PgAllocEnv) (entry : page_dir_entry_t) (flags : Nat)
    (hp : entry.present = true) (hg : entry.global = true)
    (hf : flags &&& MM_GLOBAL = 0) :
    __mem_pg_entry_alloc env entry flags = PgEntryAllocRes.panic := by
  simp [__mem_pg_entry_alloc, hp, hg, hf]

/-- Witness for C8: a concrete present, global directory entry updated
with `MM_PRESENT | MM_RW` (no `MM_GLOBAL`) panics. -/
theorem mem_pg_entry_alloc_global_drop_panics_witness :
    __mem_pg_entry_alloc { tableAllocOk := true, lookupOk := true }
      { present := true, rw := true, user := false, accessed := false,
        global := true, available := 1, frame := 3 }
      (MM_PRESENT ||| MM_RW) = PgEntryAllocRes.panic :=
  mem_pg_entry_alloc_global_drop_panics _ _ _ rfl rfl (by decide)

/-! Section: Claim C4 -/

/-- C4.  For every page fault whose faulting address falls under a
page-directory entry that is not present: with the error code's user bit
set, SIGSEGV is enqueued on the current task and the scheduler is
re-entered (outcome `segv`, which does not retry the instruction); with
the user bit clear, the kernel panics. -/
theorem page_fault_dir_not_present (env : PFEnv) (hd : env.dir_present = false) :
    (∀ pid, env.err_user = true → env.current_task = some pid →
      page_fault_handler env = PFOutcome.segv pid) ∧
    (env.err_user = false → page_fault_handler env = PFOutcome.panic) := by
  constructor
  · intro pid hu ht
    simp [page_fault_handler, hd, hu, ht]
  · intro hu
    simp [page_fault_handler, hd, hu]

/-- Witness for C4: a concrete user fault under an absent directory
entry with current task 3 yields SIGSEGV-and-reschedule. -/
theorem page_fault_dir_not_present_witness :
    page_fault_handler pfEnvDirAbsent = PFOutcome.segv 3 :=
  (page_fault_dir_not_present pfEnvDirAbsent rfl).1 3 rfl rfl

/-! Section: Claim C2 -/

/-- C2 (code bug).  On a page fault over a leaf entry with the CoW bit
set and the present bit 1, `__page_handle_cow` does clear the CoW bit
without allocating, but then falls through to its `return 1` error path
(whose message even claims the page was not CoW), so `page_fault_handler`
does not resolve the fault: for a user write fault it enqueues SIGSEGV
and reschedules instead of returning normally after a TLB flush. -/
theorem page_fault_cow_present_not_resolved :
    __page_handle_cow pfEnvCowPresent.cow pteCowPresent =
      CowRes.err { pteCowPresent with kernel_cow := false } ∧
    page_fault_handler pfEnvCowPresent = PFOutcome.segv 7 := by
  constructor
  · decide
  · decide

/-! Section: Claim C1 -/

/-- C1.  For every `sys_fork` call whose trap-frame snapshot has the
interrupt-enable flag set (true of every trap frame taken from user
mode, and the `| EFLAG_IF` in `sys_fork` is then the identity): the
value returned to the parent is the pid of the new child, the child's
saved registers equal the parent's snapshot except `eax` which is forced
to 0, the parent's stored snapshot is the trap frame itself, and the
child's address-space contents equal the parent's. -/
theorem sys_fork_child_registers (current : task_struct) (f : pt_regs_t)
    (newPid : Nat) (hIF : f.eflags.testBit 9 = true) :
    (sys_fork current f newPid).1 = (sys_fork current f newPid).2.2.pid ∧
    (sys_fork current f newPid).2.2.pid = newPid ∧
    (sys_fork current f newPid).2.2.thread_regs = { f with eax := 0 } ∧
    (sys_fork current f newPid).2.1.thread_regs = f ∧
    (sys_fork current f newPid).2.2.mm.contents =
      (sys_fork current f newPid).2.1.mm.contents := by
  have h512 : f.eflags ||| EFLAG_IF = f.eflags := or_512_of_testBit f.eflags hIF
  refine ⟨rfl, rfl, ?_, rfl, rfl⟩
  simp only [sys_fork, scheduler_store_context, __alloc_task, EFLAG_IF] at *
  rw [h512]

/-- Witness for C1 at the concrete parent `taskSample` and trap frame
`regsSample` (whose `eflags` is exactly `EFLAG_IF`), with child pid 9. -/
theorem sys_fork_child_registers_witness :
    (sys_fork taskSample regsSample 9).1 = (sys_fork taskSample regsSample 9).2.2.pid ∧
    (sys_fork taskSample regsSample 9).2.2.pid = 9 ∧
    (sys_fork taskSample regsSample 9).2.2.thread_regs = { regsSample with eax := 0 } ∧
    (sys_fork taskSample regsSample 9).2.1.thread_regs = regsSample ∧
    (sys_fork taskSample regsSample 9).2.2.mm.contents =
      (sys_fork taskSample regsSample 9).2.1.mm.contents :=
  sys_fork_child_registers taskSample regsSample 9 (by decide)

/-! Section: Lemmas about the munmap scan -/

/-- If no VMA matches `(addr, length)` exactly, the reverse scan finds
nothing. -/
theorem munmapScan_none_of_no_match (addr length : Nat) :
    ∀ l : List vm_area_struct_t,
      (∀ v ∈ l, ¬(v.vm_start = addr ∧ v.vm_end - v.vm_start = length)) →
      munmapScan addr length l = none := by
  intro l
  induction l with
  | nil => intro _; rfl
  | cons v t ih =>
    intro h
    have ht : munmapScan addr length t = none :=
      ih fun w hw => h w (List.mem_cons_of_mem v hw)
    have hv : ¬(v.vm_start = addr ∧ v.vm_end - v.vm_start = length) :=
      h v (List.mem_cons_self v t)
    simp [munmapScan, ht, hv]

/-- A successful reverse scan removed exactly one VMA that matches
`(addr, length)` exactly. -/
theorem munmapScan_some_spec (addr length : Nat) :
    ∀ l l1 : List vm_area_struct_t,
      munmapScan addr length l = some l1 →
      ∃ v ∈ l, v.vm_start = addr ∧ v.vm_end - v.vm_start = length ∧
        l1.length + 1 = l.length := by
  intro l
  induction l with
  | nil => intro l1 h; cases h
  | cons v t ih =>
    intro l1 h
    unfold munmapScan at h
    cases hs : munmapScan addr length t with
    | some t1 =>
      rw [hs] at h
      obtain ⟨w, hw, h1, h2, h3⟩ := ih t1 hs
      cases h
      exact ⟨w, List.mem_cons_of_mem v hw, h1, h2, by simpa using congrArg Nat.succ h3⟩
    | none =>
      rw [hs] at h
      by_cases hv : v.vm_start = addr ∧ v.vm_end - v.vm_start = length
      · rw [if_pos hv] at h
        cases h
        exact ⟨v, List.mem_cons_self v t, hv.1, hv.2, rfl⟩
      · rw [if_neg hv] at h
        cases h

/-! Section: Claim C7 -/

/-- C7.  `sys_munmap` destroys a VMA only when one matches `(addr, len)`
exactly (same start, same size), and when none matches it returns the
positive indicator 1 with the VMA list unchanged. -/
theorem sys_munmap_exact_match_only (l : List vm_area_struct_t) (addr length : Nat) :
    ((∀ v ∈ l, ¬(v.vm_start = addr ∧ v.vm_end - v.vm_start = length)) →
      sys_munmap l addr length = (1, l)) ∧
    (∀ l1, sys_munmap l addr length = (0, l1) →
      ∃ v ∈ l, v.vm_start = addr ∧ v.vm_end - v.vm_start = length ∧
        l1.length + 1 = l.length) := by
  constructor
  · intro h
    unfold sys_munmap
    rw [munmapScan_none_of_no_match addr length l h]
  · intro l1 h
    unfold sys_munmap at h
    cases hs : munmapScan addr length l with
    | none => rw [hs] at h; simp at h
    | some l2 =>
      rw [hs] at h
      have h2 : l2 = l1 := congrArg Prod.snd h
      subst h2
      exact munmapScan_some_spec addr length l l2 hs

/-- Witness for C7: unmapping a range whose length does not match the
only VMA returns 1 and leaves the list unchanged. -/
theorem sys_munmap_exact_match_only_witness :
    sys_munmap [{ vm_start := 4096, vm_end := 8192, vm_flags := 0 }] 4096 1000 =
      (1, [{ vm_start := 4096, vm_end := 8192, vm_flags := 0 }]) :=
  (sys_munmap_exact_match_only
      [{ vm_start := 4096, vm_end := 8192, vm_flags := 0 }] 4096 1000).1 (by decide)

/-! Section: Claim C9 -/

/-- A successful `vm_area_search_free_area` yields a start address whose
range is free. -/
theorem vm_area_search_free_area_valid (env : MmapEnv) (l : List vm_area_struct_t)
    (length s : Nat) (h : vm_area_search_free_area env l length = some s) :
    vm_area_is_valid l s (s + length) = true := by
  unfold vm_area_search_free_area at h
  cases he : env.searchResult with
  | none => simp only [he] at h; cases h
  | some s0 =>
    simp only [he] at h
    by_cases hv : vm_area_is_valid l s0 (s0 + length) = true
    · rw [if_pos hv] at h
      cases h
      exact hv
    · rw [if_neg hv] at h
      cases h

/-- A successfully chosen start address maps a free range. -/
theorem mmapChooseStart_valid (env : MmapEnv) (l : List vm_area_struct_t)
    (addr : Option Nat) (length s : Nat)
    (h : mmapChooseStart env l addr length = some s) :
    vm_area_is_valid l s (s + length) = true := by
  unfold mmapChooseStart at h
  cases addr with
  | none => exact vm_area_search_free_area_valid env l length s h
  | some aa =>
    simp only at h
    by_cases hv : vm_area_is_valid l aa (aa + length) = true
    · rw [if_pos hv] at h
      cases h
      exact hv
    · rw [if_neg hv] at h
      exact vm_area_search_free_area_valid env l length s h

/-- A successful `sys_mmap` mapped a free range of exactly `length` bytes
at the returned address and linked exactly one new VMA for it. -/
theorem sys_mmap_success_shape (env : MmapEnv) (l : List vm_area_struct_t)
    (addr : Option Nat) (length flags offset a : Nat) (l1 : List vm_area_struct_t)
    (h : sys_mmap env l addr length flags offset = some (a, l1)) :
    vm_area_is_valid l a (a + length) = true ∧ l1 = vm_area_create l a length flags := by
  unfold sys_mmap at h
  cases hfd : env.fdValid
  · simp [hfd] at h
  cases hfv : env.fileValid
  · simp [hfd, hfv] at h
  cases hfs : env.fstatOk
  · simp [hfd, hfv, hfs] at h
  by_cases hsz : offset + length > env.fileSize
  · simp [hfd, hfv, hfs, hsz] at h
  cases hchoose : mmapChooseStart env l addr length with
  | none => simp [hfd, hfv, hfs, hsz, hchoose] at h
  | some s =>
    cases hck : env.createOk
    · simp [hfd, hfv, hfs, hsz, hchoose, hck] at h
    · simp only [hfd, hfv, hfs, hchoose, hck, Bool.not_true, Bool.false_eq_true,
        if_false, if_true, if_neg hsz, Option.some.injEq, Prod.mk.injEq] at h
      obtain ⟨rfl, h2⟩ := h
      exact ⟨mmapChooseStart_valid env l addr length s hchoose, h2.symm⟩

/-- C9.  A successful `sys_mmap` returning address `a`, followed by
`sys_munmap(a, len)`, restores the VMA list to its pre-mmap state. -/
theorem mmap_munmap_roundtrip (env : MmapEnv) (l : List vm_area_struct_t)
    (addr : Option Nat) (length flags offset a : Nat) (l1 : List vm_area_struct_t)
    (h : sys_mmap env l addr length flags offset = some (a, l1)) :
    sys_munmap l1 a length = (0, l) := by
  obtain ⟨hvalid, rfl⟩ := sys_mmap_success_shape env l addr length flags offset a l1 h
  have hfacts : a < a + length ∧
      ∀ v ∈ l, a + length ≤ v.vm_start ∨ v.vm_end ≤ a := by
    unfold vm_area_is_valid at hvalid
    simp only [Bool.and_eq_true, decide_eq_true_eq, List.all_eq_true,
      Bool.or_eq_true] at hvalid
    exact hvalid
  have hnone : munmapScan a length l = none := by
    apply munmapScan_none_of_no_match
    intro v hv hmatch
    rcases hfacts.2 v hv with h3 | h3 <;> omega
  unfold sys_munmap vm_area_create
  simp [munmapScan, hnone]

/-- Witness for C9: a concrete mmap of 4096 bytes at the searched
address 4096 on an empty VMA list, then munmap of the same range,
returns to the empty list. -/
theorem mmap_munmap_roundtrip_witness :
    sys_munmap [{ vm_start := 4096, vm_end := 8192, vm_flags := 2 }] 4096 4096 =
      (0, ([] : List vm_area_struct_t)) :=
  mmap_munmap_roundtrip mmapEnvSample [] none 4096 2 0 4096
    [{ vm_start := 4096, vm_end := 8192, vm_flags := 2 }] (by decide)

/-! Section: Lemmas about the clone loop -/

/-- Positions below the destination window are untouched by the clone
loop. -/
theorem cloneLoop_apply_lt (src : PageView) (flags : Nat) :
    ∀ (count : Nat) (dst : Nat → page_table_entry_t) (spfn dpfn p : Nat), p < dpfn →
      (cloneLoop src flags dst spfn dpfn count).1 p = dst p := by
  intro count
  induction count with
  | zero => intro dst spfn dpfn p _; rfl
  | succ k ih =>
    intro dst spfn dpfn p hp
    simp only [cloneLoop]
    rw [ih _ (spfn + 1) (dpfn + 1) p (by omega)]
    have hne : p ≠ dpfn := by omega
    simp [hne]

/-- The final value of the destination entry at offset `i` of the window
is the clone of the source entry at offset `i`, computed from the
original destination value there. -/
theorem cloneLoop_get (src : PageView) (flags : Nat) :
    ∀ (count : Nat) (dst : Nat → page_table_entry_t) (spfn dpfn i : Nat), i < count →
      (cloneLoop src flags dst spfn dpfn count).1 (dpfn + i) =
        cloneEntry src flags (dst (dpfn + i)) (spfn + i) := by
  intro count
  induction count with
  | zero => intro dst spfn dpfn i hi; exact absurd hi (Nat.not_lt_zero i)
  | succ k ih =>
    intro dst spfn dpfn i hi
    simp only [cloneLoop]
    cases i with
    | zero =>
      simp only [Nat.add_zero]
      rw [cloneLoop_apply_lt src flags k
        (fun p => if p = dpfn then cloneEntry src flags (dst dpfn) spfn else dst p)
        (spfn + 1) (dpfn + 1) dpfn (Nat.lt_succ_self dpfn)]
      simp
    | succ j =>
      have hj : j < k := by omega
      have hstep := ih
        (fun p => if p = dpfn then cloneEntry src flags (dst dpfn) spfn else dst p)
        (spfn + 1) (dpfn + 1) j hj
      have e1 : dpfn + (j + 1) = (dpfn + 1) + j := by omega
      have e2 : spfn + (j + 1) = (spfn + 1) + j := by omega
      rw [e1, e2, hstep]
      have hne : (dpfn + 1) + j ≠ dpfn := by omega
      simp [hne]

/-- Every destination page of the clone window gets its TLB entry
flushed. -/
theorem cloneLoop_flushed (src : PageView) (flags : Nat) :
    ∀ (count : Nat) (dst : Nat → page_table_entry_t) (spfn dpfn i : Nat), i < count →
      (dpfn + i) * PAGE_SIZE ∈ (cloneLoop src flags dst spfn dpfn count).2 := by
  intro count
  induction count with
  | zero => intro dst spfn dpfn i hi; exact absurd hi (Nat.not_lt_zero i)
  | succ k ih =>
    intro dst spfn dpfn i hi
    simp only [cloneLoop]
    cases i with
    | zero => simp
    | succ j =>
      have hj : j < k := by omega
      have e1 : dpfn + (j + 1) = (dpfn + 1) + j := by omega
      rw [e1]
      exact List.mem_cons_of_mem _ (ih _ (spfn + 1) (dpfn + 1) j hj)

/-- For a page-aligned start, the iterator count is the page-rounded-up
size. -/
theorem pgIterCount_aligned (a s : Nat) (h : a % PAGE_SIZE = 0) :
    pgIterCount a s = (s + PAGE_SIZE - 1) / PAGE_SIZE := by
  unfold pgIterCount PAGE_SIZE at *
  omega

/-- Auxiliary rewriting of a mod-2-guarded conditional. -/
theorem if_mod_two_eq (m c : Nat) : (if m % 2 = 1 then c else 0) = c * (m % 2) := by
  rcases Nat.mod_two_eq_zero_or_one m with h | h <;> simp [h]

/-- Writing an even 32-bit address into an entry word and then clearing
the present bit leaves the word equal to the address. -/
theorem pteEncode_decode_present_false (a : Nat) (hlt : a < 4294967296)
    (he : a % 2 = 0) :
    pteEncode { pteDecode a with present := false } = a := by
  simp only [pteDecode, pteEncode, decide_eq_true_eq, Bool.false_eq_true, if_false]
  simp only [if_mod_two_eq]
  omega

/-! Section: Claim C3 -/

/-- C3.  For every call to `mem_clone_vm_area` over page-aligned source
and destination ranges, and for every source leaf entry of the cloned
range: if the source entry's CoW bit is set, the destination entry's
32-bit payload becomes the address of the source entry with the present
bit cleared; otherwise the destination receives the source frame number
and the flag bits derived from `flags`; and in both cases the TLB entry
of the destination page is flushed.  The alignment of leaf entries
(4-byte C objects inside a page table) enters as the hypothesis that the
source entry's address is an even 32-bit value. -/
theorem mem_clone_vm_area_entries (src : PageView) (dst : Nat → page_table_entry_t)
    (src_start dst_start size flags : Nat)
    (hs : src_start % PAGE_SIZE = 0) (hd : dst_start % PAGE_SIZE = 0)
    (i : Nat) (hi : i < pgIterCount src_start size)
    (ha : src.entryAddr (src_start / PAGE_SIZE + i) % 4 = 0)
    (hlt : src.entryAddr (src_start / PAGE_SIZE + i) < 4294967296) :
    ((src.entries (src_start / PAGE_SIZE + i)).kernel_cow = true →
      pteEncode ((mem_clone_vm_area src dst src_start dst_start size flags).1
          (dst_start / PAGE_SIZE + i)) = src.entryAddr (src_start / PAGE_SIZE + i) ∧
      ((mem_clone_vm_area src dst src_start dst_start size flags).1
          (dst_start / PAGE_SIZE + i)).present = false) ∧
    ((src.entries (src_start / PAGE_SIZE + i)).kernel_cow = false →
      (mem_clone_vm_area src dst src_start dst_start size flags).1
          (dst_start / PAGE_SIZE + i) =
        __set_pg_table_flags
          { dst (dst_start / PAGE_SIZE + i) with
            frame := (src.entries (src_start / PAGE_SIZE + i)).frame } flags) ∧
    ((dst_start / PAGE_SIZE + i) * PAGE_SIZE) ∈
      (mem_clone_vm_area src dst src_start dst_start size flags).2 := by
  have hcount : min (pgIterCount src_start size) (pgIterCount dst_start size) =
      pgIterCount src_start size := by
    rw [pgIterCount_aligned _ _ hs, pgIterCount_aligned _ _ hd]
    exact Nat.min_self _
  unfold mem_clone_vm_area
  rw [hcount]
  have hget := cloneLoop_get src flags (pgIterCount src_start size) dst
    (src_start / PAGE_SIZE) (dst_start / PAGE_SIZE) i hi
  refine ⟨?_, ?_, ?_⟩
  · intro hcow
    rw [hget]
    simp only [cloneEntry]
    rw [hcow, if_pos rfl]
    exact ⟨pteEncode_decode_present_false _ hlt (by omega), rfl⟩
  · intro hncow
    rw [hget]
    simp only [cloneEntry]
    rw [hncow, if_neg (by simp)]
  · exact cloneLoop_flushed src flags (pgIterCount src_start size) dst
      (src_start / PAGE_SIZE) (dst_start / PAGE_SIZE) i hi

/-- Witness for C3: cloning one page whose source entry is CoW stores the
source-entry address 4104 in the destination word, clears the present
bit, and flushes the destination page. -/
theorem mem_clone_vm_area_entries_witness :
    (pteEncode ((mem_clone_vm_area pageViewSample (fun _ => pteDecode 0) 0 4096 4096 0).1
        (4096 / PAGE_SIZE + 0)) = pageViewSample.entryAddr (0 / PAGE_SIZE + 0) ∧
      ((mem_clone_vm_area pageViewSample (fun _ => pteDecode 0) 0 4096 4096 0).1
        (4096 / PAGE_SIZE + 0)).present = false) ∧
    ((4096 / PAGE_SIZE + 0) * PAGE_SIZE) ∈
      (mem_clone_vm_area pageViewSample (fun _ => pteDecode 0) 0 4096 4096 0).2 := by
  have h := mem_clone_vm_area_entries pageViewSample (fun _ => pteDecode 0)
    0 4096 4096 0 (by decide) (by decide) 0 (by decide) (by decide) (by decide)
  exact ⟨h.1 rfl, h.2.2⟩

/-! Section: Lemmas about the push helpers -/

/-- A run of one-byte pushes lowers the stack pointer by its length. -/
theorem foldl_pushByte_sp (l : List Nat) :
    ∀ st : PushState, (l.foldl pushByte st).sp = st.sp - l.length := by
  induction l with
  | nil => intro st; simp
  | cons b t ih =>
    intro st
    simp only [List.foldl_cons, ih, pushByte, List.length_cons]
    omega

/-- Pushing one argument lowers the stack pointer by `strlen + 1`. -/
theorem pushString_sp (st : PushState) (s : String) :
    (pushString st s).sp = st.sp - (s.length + 1) := by
  unfold pushString
  rw [foldl_pushByte_sp]
  simp only [List.length_reverse, List.length_append, List.length_map,
    List.length_cons, List.length_nil]
  rfl

/-- The first loop of `__push_args_on_stack` lowers the stack pointer by
the total character bytes of the arguments. -/
theorem pushArgsPhase1_sp :
    ∀ (args : List String) (st : PushState),
      (pushArgsPhase1 st args).1.sp = st.sp - (args.map fun a => a.length + 1).sum := by
  intro args
  induction args with
  | nil => intro st; simp [pushArgsPhase1]
  | cons a t ih =>
    intro st
    simp only [pushArgsPhase1, pushString_sp, ih, List.map_cons, List.sum_cons]
    omega

/-- The first loop records one location per argument. -/
theorem pushArgsPhase1_locs_length :
    ∀ (args : List String) (st : PushState),
      (pushArgsPhase1 st args).2.length = args.length := by
  intro args
  induction args with
  | nil => intro st; rfl
  | cons a t ih =>
    intro st
    simp only [pushArgsPhase1, List.length_cons, ih]

/-- A run of four-byte pushes lowers the stack pointer by four times its
length. -/
theorem foldl_pushWord_sp (l : List Nat) :
    ∀ st : PushState, (l.foldl pushWord st).sp = st.sp - 4 * l.length := by
  induction l with
  | nil => intro st; simp
  | cons v t ih =>
    intro st
    simp only [List.foldl_cons, ih, pushWord, List.length_cons]
    omega

/-! Section: Claim C10 -/

/-- C10.  For every NULL-terminated argument array, `__push_args_on_stack`
decrements the stack pointer by exactly `__count_args_bytes` bytes (the
sum of `strlen + 1` over the arguments plus `argc + 1` pointer-sized
words); consequently in `sys_execve`, pushing argv and then envp into a
kernel block of `argv_bytes + envp_bytes` bytes starting at its top ends
exactly at the block base, so the assertion `args_mem_ptr == args_mem`
always holds. -/
theorem push_args_stack_decrement :
    (∀ (st : PushState) (args : List String), __count_args_bytes args ≤ st.sp →
      (__push_args_on_stack st args).2.sp = st.sp - __count_args_bytes args ∧
      st.sp = (__push_args_on_stack st args).2.sp + __count_args_bytes args) ∧
    (∀ (argv envp : List String) (base : Nat) (mem : Nat → Nat),
      (__push_args_on_stack
        (__push_args_on_stack
          { sp := base + (__count_args_bytes argv + __count_args_bytes envp), mem := mem }
          argv).2 envp).2.sp = base) := by
  have hsp : ∀ (st : PushState) (args : List String),
      (__push_args_on_stack st args).2.sp = st.sp - __count_args_bytes args := by
    intro st args
    unfold __push_args_on_stack
    simp only [foldl_pushWord_sp, pushWord, pushArgsPhase1_sp, List.length_reverse,
      pushArgsPhase1_locs_length, __count_args_bytes]
    omega
  constructor
  · intro st args hle
    refine ⟨hsp st args, ?_⟩
    rw [hsp st args]
    omega
  · intro argv envp base mem
    rw [hsp, hsp]
    simp only
    omega

/-- Witness for C10 at a concrete argument list: pushing `["a"]` from
stack position 100 lands exactly `__count_args_bytes ["a"] = 10` bytes
lower. -/
theorem push_args_stack_decrement_witness :
    (__push_args_on_stack { sp := 100, mem := fun _ => 0 } ["a"]).2.sp =
      100 - __count_args_bytes ["a"] ∧
    100 = (__push_args_on_stack { sp := 100, mem := fun _ => 0 } ["a"]).2.sp +
      __count_args_bytes ["a"] :=
  push_args_stack_decrement.1 { sp := 100, mem := fun _ => 0 } ["a"] (by decide)

/-! Section: Claim C5 -/

/-- Counterexample for C5 as stated: execing a nested shebang script
fails with `ELOOP` after the old `mm` has been torn down (the image is
the blank rebuilt one, not the original), yet the task is *not*
terminated — `sys_execve` merely returns the error. -/
theorem sys_execve_post_teardown_not_terminated_cex :
    (sys_execve envNestedShebang "script" ["script"] []).ret = -ELOOP ∧
    (sys_execve envNestedShebang "script" ["script"] []).mm = MMState.blank ∧
    (sys_execve envNestedShebang "script" ["script"] []).mm ≠ MMState.original ∧
    (sys_execve envNestedShebang "script" ["script"] []).terminated = false := by
  refine ⟨by decide, by decide, by decide, by decide⟩

/-- C5 (amended).  A `sys_execve` failure before the `mm` teardown (for
example the scratch-buffer allocation failure) returns an error and
leaves the original process image intact; a failure after teardown
leaves the task with the torn-down (blank or null) image, but the code
does not terminate the task on any path — it returns the error to the
now-unrecoverable process. -/
theorem sys_execve_failure_paths (env : ExecveEnv) (filename : String)
    (argv envp : List String) :
    (sys_execve env filename argv envp).terminated = false ∧
    (argv ≠ [] → env.argsAllocOk = false →
      (sys_execve env filename argv envp).ret = -1 ∧
      (sys_execve env filename argv envp).mm = MMState.original) := by
  constructor
  · rcases argv with _ | ⟨a0, rest⟩
    · rfl
    · simp only [sys_execve]
      split_ifs <;> rfl
  · intro hne halloc
    rcases argv with _ | ⟨a0, rest⟩
    · exact absurd rfl hne
    · constructor <;> simp [sys_execve, halloc]

/-- Witness for C5's amended statement: with the scratch allocation
failing, exec of `["x"]` returns -1 with the image intact and the task
alive. -/
theorem sys_execve_failure_paths_witness :
    (sys_execve envAllocFail "f" ["x"] []).terminated = false ∧
    (sys_execve envAllocFail "f" ["x"] []).ret = -1 ∧
    (sys_execve envAllocFail "f" ["x"] []).mm = MMState.original := by
  have h := sys_execve_failure_paths envAllocFail "f" ["x"] []
  exact ⟨h.1, h.2 (by decide) rfl⟩

/-! Section: Claim C6 -/

/-- C6 (code bug).  Exec of a `#!/bin/sh` script with argv
`["script", "a"]` loads the image `/bin/sh`, increments argc to 3 and
inserts the original filename as argv[1]; but because the source
assigns `int_argv[0] = saved_argv[0]` (with a `TODO: pass the path to
the interpreter` comment), the argv seen by `main` is
`["script", "script", "a"]`, not the POSIX `["/bin/sh", "script", "a"]`
the claim states. -/
theorem sys_execve_shebang_argv0 :
    (sys_execve envShebang "script" ["script", "a"] []).ret = 0 ∧
    (sys_execve envShebang "script" ["script", "a"] []).loaded = some "/bin/sh" ∧
    (sys_execve envShebang "script" ["script", "a"] []).argc = some 3 ∧
    (sys_execve envShebang "script" ["script", "a"] []).argv =
      some ["script", "script", "a"] ∧
    (sys_execve envShebang "script" ["script", "a"] []).argv ≠
      some ["/bin/sh", "script", "a"] := by
  refine ⟨by decide, by decide, by decide, by decide, by decide⟩

end MentOS
